import Mathlib

/-!
Shallow embedding of the `dinero` portfolio pipeline (`src/main.py`) and proofs
about its parsing, assembly, enrichment, metric-derivation and aggregation logic.

Modelling conventions:
* A pandas cell holding a float is modelled as `Option ℚ` (`Val`); `none` models
  a non-finite value (NaN, and the ±inf that pandas produces on division of a
  nonzero float by zero — both are rendered "undefined" here; no value that the
  program sums or compares against 1.0 can be ±inf, so the collapse is faithful
  for every property stated below).
* A pandas cell holding a string (or NaN) is `Option String`.
* Rational arithmetic is expressed through `Rat.divInt`-based wrappers
  (`qadd`, `qsub`, `qmul`, `qdiv`) so that concrete runs reduce inside the
  kernel; the lemmas `qadd_eq`, `qsub_eq`, `qmul_eq`, `qdiv_eq` prove they are
  exactly `+`, `-`, `*`, `/` on `ℚ`.
-/

namespace Dinero

/-! ### Kernel-computable rational arithmetic -/

/-- Addition on `ℚ` via `Rat.divInt` (equal to `+`, see `qadd_eq`). -/
def qadd (a b : ℚ) : ℚ :=
  Rat.divInt (a.num * b.den + b.num * a.den) ((a.den : ℤ) * (b.den : ℤ))

/-- Negation on `ℚ` via `Rat.divInt` (equal to `Neg.neg`, see `qneg_eq`). -/
def qneg (a : ℚ) : ℚ :=
  Rat.divInt (-a.num) (a.den : ℤ)

/-- Subtraction on `ℚ` (equal to `-`, see `qsub_eq`). -/
def qsub (a b : ℚ) : ℚ :=
  qadd a (qneg b)

/-- Multiplication on `ℚ` via `Rat.divInt` (equal to `*`, see `qmul_eq`). -/
def qmul (a b : ℚ) : ℚ :=
  Rat.divInt (a.num * b.num) ((a.den : ℤ) * (b.den : ℤ))

/-- Division on `ℚ` via `Rat.divInt` (equal to `/`, see `qdiv_eq`). -/
def qdiv (a b : ℚ) : ℚ :=
  Rat.divInt (a.num * b.den) ((a.den : ℤ) * b.num)

/-! ### Cells and NaN-propagating arithmetic -/

/-- A numeric pandas cell: `none` models NaN (and any non-finite value). -/
abbrev Val := Option ℚ

/-- NaN-propagating product, as in `df[a] * df[b]`. -/
def vmul : Val → Val → Val
  | some a, some b => some (qmul a b)
  | _, _ => none

/-- NaN-propagating difference, as in `df[a] - df[b]`. -/
def vsub : Val → Val → Val
  | some a, some b => some (qsub a b)
  | _, _ => none

/-- NaN-propagating quotient, as in `df[a] / df[b]`.  Division by zero yields
an IEEE non-finite value in pandas (NaN or ±inf), modelled as `none`. -/
def vdiv : Val → Val → Val
  | some a, some b => if b = 0 then none else some (qdiv a b)
  | _, _ => none

/-- Semantics of `Series.sum`: NaN entries are skipped, the empty sum is `0`. -/
def sumSkipNa (vs : List Val) : ℚ :=
  (vs.filterMap id).foldl qadd 0

/-- Semantics of `GroupBy.agg "first"`: the first non-NaN entry (NaN if none). -/
def firstNonNa (vs : List Val) : Val :=
  (vs.filterMap id).head?

/-! ### String utilities (modelling `str.replace`, `str.contains`,
`str.extract`, `pd.to_numeric`) -/

/-- Tests whether `pat` is an initial segment of `s` (both as char lists). -/
def leadsWith : List Char → List Char → Bool
  | [], _ => true
  | _ :: _, [] => false
  | a :: as, b :: bs => a = b && leadsWith as bs

/-- Tests whether `pat` occurs contiguously somewhere in `cs`. -/
def occursIn (pat : List Char) : List Char → Bool
  | [] => leadsWith pat []
  | c :: cs => leadsWith pat (c :: cs) || occursIn pat cs

/-- Case-sensitive substring test, as in `Series.str.contains` with a
literal-only pattern. -/
def hasSub (pat s : String) : Bool :=
  occursIn pat.data s.data

/-- ASCII upper-casing, as in Python's `str.upper` on ticker symbols. -/
def upcase (s : String) : String :=
  String.mk (s.data.map Char.toUpper)

/-- Model of `str.replace("$", "").str.replace(",", "")`: drop every dollar sign and
every comma. -/
def stripMoney (s : String) : String :=
  String.mk (s.data.filter (fun c => c ≠ '$' && c ≠ ','))

/-- Digits of a numeral read into a natural number (caller guarantees the
characters are digits). -/
def digitsToNat (cs : List Char) : ℕ :=
  cs.foldl (fun n c => n * 10 + (c.toNat - 48)) 0

def allDigits (cs : List Char) : Bool :=
  cs.all Char.isDigit

/-- Split at the first `'.'`: integer part, and fractional part when a dot is
present. -/
def splitDot : List Char → List Char × Option (List Char)
  | [] => ([], none)
  | '.' :: rest => ([], some rest)
  | c :: rest =>
    let (a, b) := splitDot rest
    (c :: a, b)

/-- Unsigned decimal-literal parser: the fixed-point fragment of the number
grammar accepted by `pd.to_numeric` (exponents are never produced by the
brokers' exports and are not modelled).  Failure is `none`, never an error. -/
def parseDecCore (cs : List Char) : Option ℚ :=
  match splitDot cs with
  | (ip, none) =>
    if ip ≠ [] && allDigits ip then some (Rat.divInt (digitsToNat ip : ℤ) 1) else none
  | (ip, some fp) =>
    if fp.any (fun c => c = '.') then none
    else if (ip ≠ [] || fp ≠ []) && allDigits ip && allDigits fp then
      some (Rat.divInt ((digitsToNat ip : ℤ) * ((10 : ℕ) ^ fp.length : ℕ) + (digitsToNat fp : ℤ))
        (((10 : ℕ) ^ fp.length : ℕ) : ℤ))
    else none

/-- Signed decimal parser (`pd.to_numeric(..., errors="coerce")` on one cell:
a failed parse becomes NaN, never an exception). -/
def parseDec (s : String) : Option ℚ :=
  match s.data with
  | '-' :: rest => (parseDecCore rest).map qneg
  | '+' :: rest => parseDecCore rest
  | cs => parseDecCore cs

/-- One cell of the numeric-cleanup step
`pd.to_numeric(col.astype(str).str.replace("$","").str.replace(",",""), errors="coerce")`:
a NaN cell stays NaN (`astype(str)` renders it `"nan"`, which does not parse),
a string cell is stripped of `$` and `,` and parsed, with `none` on failure. -/
def coerceNum (cell : Option String) : Val :=
  cell.bind (fun s => parseDec (stripMoney s))

/-! ### Canonical position records (parser output) -/

/-- One row of the flat ledger after parsing (`portfolio_df` columns
`Account Type, Symbol, Description, Quantity, Current Price,
Cost Basis Total, Source`). -/
structure PositionRecord where
  accountType : Option String
  symbol : Option String
  description : Option String
  quantity : Val
  currentPrice : Val
  costBasisTotal : Val
  source : String
deriving DecidableEq

/-! ### Format A: `load_fidelity` -/

/-- One raw row of a Fidelity export, with the columns `load_fidelity`
touches.  String cells keep their text; a NaN cell is `none`.  (`read_csv`
may parse a purely numeric column as floats; rendering those back through
`astype(str)` is equivalent to keeping the original text for the parser's
purposes.) -/
structure FidelityRow where
  accountName : Option String
  symbol : Option String
  description : Option String
  quantity : Option String
  lastPrice : Option String
  costBasisTotal : Option String
  currentValue : Option String
deriving DecidableEq

/-- Cash synthesis (`main.py` lines 31–35): a row whose raw `Quantity` is NaN
gets `Last Price = 1.0`, and both `Cost Basis Total` and `Quantity` set to the
raw `Current Value` cell. -/
def fidelityCashFix (r : FidelityRow) : FidelityRow :=
  if r.quantity = none then
    { r with lastPrice := some "1.0", costBasisTotal := r.currentValue,
             quantity := r.currentValue }
  else r

/-- Model of `str.extract(r"(Individual|ROTH IRA|Traditional IRA)")`: the leftmost
occurrence of one of the three literal alternatives, tried in pattern order at
each position; no match yields NaN. -/
def fidelityExtract : List Char → Option String
  | [] => none
  | c :: cs =>
    if leadsWith "Individual".data (c :: cs) then some "Individual"
    else if leadsWith "ROTH IRA".data (c :: cs) then some "ROTH IRA"
    else if leadsWith "Traditional IRA".data (c :: cs) then some "Traditional IRA"
    else fidelityExtract cs

/-- Account-label normalization of `load_fidelity` (lines 56–61): extract one
of the three known patterns, then `replace` maps the exact values
`"Individual" ↦ "Brokerage"` and `"ROTH IRA" ↦ "Roth IRA"`.  An account name
matching none of the patterns becomes NaN. -/
def fidelityAcctNorm (name : String) : Option String :=
  (fidelityExtract name.data).map (fun t =>
    if t = "Individual" then "Brokerage"
    else if t = "ROTH IRA" then "Roth IRA"
    else t)

/-- Column standardisation and numeric cleanup for one (account-named)
Fidelity row. -/
def fidelityToRec (r0 : FidelityRow) : PositionRecord :=
  let r := fidelityCashFix r0
  { accountType := r.accountName.bind fidelityAcctNorm
    symbol := r.symbol
    description := r.description
    quantity := coerceNum r.quantity
    currentPrice := coerceNum r.lastPrice
    costBasisTotal := coerceNum r.costBasisTotal
    source := "Fidelity" }

/-- Model of `load_fidelity`: drop rows with a NaN `Account Name`, synthesize cash
rows, standardise columns, coerce numerics, normalize account labels. -/
def loadFidelity (raw : List FidelityRow) : List PositionRecord :=
  (raw.filter (fun r => r.accountName.isSome)).map fidelityToRec

/-! ### Format B: `load_schwab` -/

/-- One raw row of a Schwab export after header promotion (`raw.iloc[3]` is
used as the header row in the source; rows above/below the holdings carry the
section titles and footers in these columns). -/
structure SchwabRow where
  symbol : Option String
  description : Option String
  qty : Option String
  price : Option String
  costBasis : Option String
  mktVal : Option String
  securityType : Option String
  pctOfAcct : Option String
deriving DecidableEq

/-- The account-marker mask
`df["Symbol"].str.contains("Individual|Roth|Contributory", na=False)`. -/
def schwabMarkerMask (s : String) : Bool :=
  hasSub "Individual" s || hasSub "Roth" s || hasSub "Contributory" s

/-- Model of `str.extract(r"(Individual|Roth|Contributory.*)")`: leftmost-then-pattern-
order match; the `Contributory.*` alternative captures through the end of the
cell. -/
def schwabExtract : List Char → Option String
  | [] => none
  | c :: cs =>
    if leadsWith "Individual".data (c :: cs) then some "Individual"
    else if leadsWith "Roth".data (c :: cs) then some "Roth"
    else if leadsWith "Contributory".data (c :: cs) then some (String.mk (c :: cs))
    else schwabExtract cs

/-- The label a row contributes to the `Account Type` column before
forward-filling: markers get their extracted label, every other row NaN
(lines 73–77). -/
def schwabMarkerOf (r : SchwabRow) : Option String :=
  match r.symbol with
  | none => none
  | some s => if schwabMarkerMask s then schwabExtract s.data else none

/-- A Schwab row paired with its forward-filled `Account Type` cell. -/
structure SchwabTagged where
  row : SchwabRow
  acct : Option String
deriving DecidableEq

/-- Model of `fillna(method="ffill")` over the `Account Type` column (line 78): an
explicit scan carrying the last marker label seen so far. -/
def ffillFrom (cur : Option String) : List SchwabRow → List SchwabTagged
  | [] => []
  | r :: rs =>
    let a := match schwabMarkerOf r with
      | some m => some m
      | none => cur
    ⟨r, a⟩ :: ffillFrom a rs

/-- The non-holding-row filter (lines 81–86): `Security Type` present and
neither the repeated header text nor `"--"`, and `% of Acct` present. -/
def schwabHolding (r : SchwabRow) : Bool :=
  (match r.securityType with
   | some t => t ≠ "Security Type" && t ≠ "--"
   | none => false)
  && r.pctOfAcct.isSome

/-- Cash synthesis (lines 88–92): rows whose `Symbol` contains `"Cash"`
(case-sensitive) get `Qty = Mkt Val`, `Cost Basis = Qty` (that is, the market
value just assigned), `Price = 1.0`. -/
def schwabCashFix (r : SchwabRow) : SchwabRow :=
  match r.symbol with
  | some s =>
    if hasSub "Cash" s then
      { r with qty := r.mktVal, costBasis := r.mktVal, price := some "1.0" }
    else r
  | none => r

/-- Account-label normalization of `load_schwab` (lines 112–119):
`Series.replace` with the regex map `.*Individual.* ↦ Brokerage`,
`.*Roth.* ↦ Roth IRA`, `.*Contributory.*|.*Traditional.* ↦ Traditional IRA`,
tried in that order; NaN stays NaN, an unmatched value stays unchanged. -/
def schwabAcctNorm : Option String → Option String
  | none => none
  | some s =>
    some (if hasSub "Individual" s then "Brokerage"
      else if hasSub "Roth" s then "Roth IRA"
      else if hasSub "Contributory" s || hasSub "Traditional" s then "Traditional IRA"
      else s)

/-- Column standardisation, numeric cleanup and label normalization for one
tagged holding row. -/
def schwabToRec (acct : Option String) (r0 : SchwabRow) : PositionRecord :=
  let r := schwabCashFix r0
  { accountType := schwabAcctNorm acct
    symbol := r.symbol
    description := r.description
    quantity := coerceNum r.qty
    currentPrice := coerceNum r.price
    costBasisTotal := coerceNum r.costBasis
    source := "Charles Schwab" }

/-- Model of `load_schwab`: drop rows with a NaN `Symbol`, build the `Account Type`
column by marker extraction and forward fill, keep only holding rows,
synthesize cash rows, standardise columns, coerce numerics, normalize
account labels. -/
def loadSchwab (raw : List SchwabRow) : List PositionRecord :=
  let rows := raw.filter (fun r => r.symbol.isSome)
  let tagged := ffillFrom none rows
  let holds := tagged.filter (fun t => schwabHolding t.row)
  holds.map (fun t => schwabToRec t.acct t.row)

/-! ### Ledger assembly (`portfolio_frames`, lines 125–138) -/

/-- One configured input file, already dispatched to its parser by the
filename test (`"fidelity" in fp.lower()` / `"schwab" in fp.lower()`);
`other` is a file whose name matches neither broker. -/
inductive BrokerFile
  | fidelity (rows : List FidelityRow)
  | schwab (rows : List SchwabRow)
  | other
deriving DecidableEq

/-- The frame a file contributes: unrecognized files are skipped with a
warning (`none`), recognized files contribute their parser's output — even
when that output has zero rows. -/
def frameOf : BrokerFile → Option (List PositionRecord)
  | .fidelity rs => some (loadFidelity rs)
  | .schwab rs => some (loadSchwab rs)
  | .other => none

/-- Model of the `portfolio_frames` list: parser outputs in input-file order. -/
def portfolioFrames (files : List BrokerFile) : List (List PositionRecord) :=
  files.filterMap frameOf

instance {ε α : Type} [DecidableEq ε] [DecidableEq α] : DecidableEq (Except ε α) := fun a b =>
  match a, b with
  | Except.error x, Except.error y =>
    if h : x = y then Decidable.isTrue (congrArg Except.error h)
    else Decidable.isFalse (fun k => h (Except.error.inj k))
  | Except.ok x, Except.ok y =>
    if h : x = y then Decidable.isTrue (congrArg Except.ok h)
    else Decidable.isFalse (fun k => h (Except.ok.inj k))
  | Except.error _, Except.ok _ => Decidable.isFalse (fun k => Except.noConfusion k)
  | Except.ok _, Except.error _ => Decidable.isFalse (fun k => Except.noConfusion k)

/-- Lines 134–138: `st.stop()` (a hard stop, modelled as an error) exactly
when the frames list itself is empty; otherwise `pd.concat` of the frames in
order. -/
def assemble (files : List BrokerFile) : Except String (List PositionRecord) :=
  let frames := portfolioFrames files
  if frames.isEmpty then Except.error "EmptyLedgerError" else Except.ok frames.flatten

/-! ### Enrichment (`fetch_latest_prices`, `fetch_dividends`, lines 144–208) -/

/-- The remote quote source (yfinance), as an oracle: `price s` / `div s` is
the value the per-symbol lookup would deliver, with `none` covering both an
absent field and a lookup that raises (the source catches every per-symbol
exception and just continues, so both cases leave no entry in the map). -/
structure Quotes where
  price : String → Option ℚ
  div : String → Option ℚ

/-- The entry `fetch_latest_prices` puts in its map for a symbol: the literal
symbol `"CASH"` (any case) is skipped, and a delivered price is kept only
when positive. -/
def livePriceMap (q : Quotes) (sym : String) : Option ℚ :=
  if upcase sym = "CASH" then none
  else match q.price sym with
    | some p => if 0 < p then some p else none
    | none => none

/-- The entry `fetch_dividends` puts in its map: the literal symbol `"CASH"`
is pinned to `0`, and a delivered dividend is kept only when nonnegative. -/
def divMap (q : Quotes) (sym : String) : Option ℚ :=
  if upcase sym = "CASH" then some 0
  else match q.div sym with
    | some d => if 0 ≤ d then some d else none
    | none => none

/-- Lines 170–175: rows with `Current Price == 1.0` are excluded from the
update mask; on the rest, `Symbol.map(live_price_map).fillna(existing)` —
an absent (or NaN-symbol) lookup retains the existing price. -/
def updatePrice (q : Quotes) (r : PositionRecord) : PositionRecord :=
  if r.currentPrice = some 1 then r
  else
    match r.symbol.bind (livePriceMap q) with
    | some p => { r with currentPrice := some p }
    | none => r

/-- A ledger row after the dividend column is attached. -/
structure LedgerRow extends PositionRecord where
  dividend : Val
deriving DecidableEq

/-- Lines 207–208: `Dividend = Symbol.map(div_map).fillna(0.0)`. -/
def attachDividend (q : Quotes) (r : PositionRecord) : LedgerRow :=
  { r with dividend := some ((r.symbol.bind (divMap q)).getD 0) }

/-- The enriched flat ledger: live-price update then dividend attachment,
row by row. -/
def enrich (q : Quotes) (rows : List PositionRecord) : List LedgerRow :=
  (rows.map (updatePrice q)).map (attachDividend q)

/-! ### Per-row derived metrics (lines 211–215) -/

def positionValue (r : LedgerRow) : Val :=
  vmul r.quantity r.currentPrice

def costBasisPerShare (r : LedgerRow) : Val :=
  vdiv r.costBasisTotal r.quantity

def pnlRatio (r : LedgerRow) : Val :=
  vdiv (vsub (positionValue r) r.costBasisTotal) r.costBasisTotal

/-! ### Symbol aggregation (`portfolio_norm`, lines 218–241) -/

/-- One row of the symbol-aggregated view. -/
structure AggRow where
  symbol : String
  costBasisTotal : Val
  quantity : Val
  currentPrice : Val
  dividend : Val
deriving DecidableEq

/-- The rows of a symbol's group, in ledger order (`groupby` matches keys
exactly and case-sensitively and keeps intra-group order). -/
def groupRows (rows : List LedgerRow) (sym : String) : List LedgerRow :=
  rows.filter (fun r => r.symbol = some sym)

/-- The aggregate of one symbol: `Cost Basis Total` and `Quantity` summed
(`agg "sum"` skips NaN, an all-NaN group sums to 0), `Current Price` and
`Dividend` by `agg "first"` (the first non-NaN entry in ledger order). -/
def aggRow (rows : List LedgerRow) (sym : String) : AggRow :=
  let g := groupRows rows sym
  { symbol := sym
    costBasisTotal := some (sumSkipNa (g.map (fun r => r.costBasisTotal)))
    quantity := some (sumSkipNa (g.map (fun r => r.quantity)))
    currentPrice := firstNonNa (g.map (fun r => r.currentPrice))
    dividend := firstNonNa (g.map (fun r => r.dividend)) }

/-- Deduplication scan keeping first occurrences (`seen` are the values
already emitted). -/
def dedupSeen (seen : List String) : List String → List String
  | [] => []
  | s :: rest =>
    if s ∈ seen then dedupSeen seen rest
    else s :: dedupSeen (s :: seen) rest

/-- The distinct symbols of the ledger, each kept at its first occurrence
(rows with a NaN symbol are dropped by `groupby`).  `groupby` sorts its
output rows by key; no property below depends on the order of the aggregated
rows, so first-occurrence order is used here. -/
def dedupKeepFirst (l : List String) : List String :=
  dedupSeen [] l

/-- Model of `portfolio_norm`: one aggregated row per distinct symbol. -/
def portfolioNorm (rows : List LedgerRow) : List AggRow :=
  (dedupKeepFirst (rows.filterMap (fun r => r.symbol))).map (aggRow rows)

/-- Lines 228–232: the derived metrics recomputed over the summed values. -/
def aggPositionValue (a : AggRow) : Val :=
  vmul a.quantity a.currentPrice

def aggCostBasisPerShare (a : AggRow) : Val :=
  vdiv a.costBasisTotal a.quantity

def aggPnlRatio (a : AggRow) : Val :=
  vdiv (vsub (aggPositionValue a) a.costBasisTotal) a.costBasisTotal

/-- Lines 235–237 (`Adjusted Yield`, with `±inf` replaced by NaN — already
collapsed into `none` by `vdiv`). -/
def adjustedYield (a : AggRow) : Val :=
  vdiv a.dividend (aggCostBasisPerShare a)

/-! ### Cash / invested summary (lines 239–241) -/

/-- Sum of `Position Value` over aggregated rows whose price is exactly 1.0. -/
def cashValue (rows : List LedgerRow) : ℚ :=
  sumSkipNa (((portfolioNorm rows).filter
    (fun a => a.currentPrice = some 1)).map aggPositionValue)

/-- Sum of `Position Value` over all other aggregated rows. -/
def investedValue (rows : List LedgerRow) : ℚ :=
  sumSkipNa (((portfolioNorm rows).filter
    (fun a => ¬ a.currentPrice = some 1)).map aggPositionValue)

/-- The whole pipeline on the enriched flat ledger: assemble, then enrich. -/
def pipeline (q : Quotes) (files : List BrokerFile) : Except String (List LedgerRow) :=
  match assemble files with
  | Except.error e => Except.error e
  | Except.ok rows => Except.ok (enrich q rows)

/-! ### Concrete inputs for the claims' scenarios -/

/-- A quote source that delivers nothing (every per-symbol lookup absent or
failed). -/
def silentQuotes : Quotes :=
  { price := fun _ => none, div := fun _ => none }

/-- A Schwab account-marker row (the symbol cell carries the account title;
the holding columns are empty). -/
def schwabMarkerRow (sym : String) : SchwabRow :=
  { symbol := some sym, description := none, qty := none, price := none,
    costBasis := none, mktVal := none, securityType := none, pctOfAcct := none }

/-- A Schwab holding row. -/
def schwabHoldingRow (sym qty price cost mkt : String) : SchwabRow :=
  { symbol := some sym, description := some sym, qty := some qty,
    price := some price, costBasis := some cost, mktVal := some mkt,
    securityType := some "Equity", pctOfAcct := some "1%" }

/-- The Fidelity file of the end-to-end scenario: one row for `XYZ`,
10 shares at price $120, cost basis $1,000. -/
def c1Fid : FidelityRow :=
  { accountName := some "Individual - TOD X123", symbol := some "XYZ",
    description := some "XYZ CORP", quantity := some "10",
    lastPrice := some "$120.00", costBasisTotal := some "$1,000.00",
    currentValue := some "$1,200.00" }

/-- The Schwab file of the end-to-end scenario: one marker, then one row for
`XYZ`, 5 shares at price $118, cost basis $600. -/
def c1Sch : List SchwabRow :=
  [ schwabMarkerRow "Individual ...456",
    schwabHoldingRow "XYZ" "5" "$118.00" "$600.00" "$590.00" ]

def c1Files : List BrokerFile :=
  [ BrokerFile.fidelity [c1Fid], BrokerFile.schwab c1Sch ]

/-- The ledger row the Fidelity file contributes in the scenario. -/
def c1RowA : LedgerRow :=
  { accountType := some "Brokerage", symbol := some "XYZ",
    description := some "XYZ CORP", quantity := some 10,
    currentPrice := some 120, costBasisTotal := some 1000,
    source := "Fidelity", dividend := some 0 }

/-- The ledger row the Schwab file contributes in the scenario. -/
def c1RowB : LedgerRow :=
  { accountType := some "Brokerage", symbol := some "XYZ",
    description := some "XYZ", quantity := some 5,
    currentPrice := some 118, costBasisTotal := some 600,
    source := "Charles Schwab", dividend := some 0 }

/-- The expected aggregated row of the scenario. -/
def c1Agg : AggRow :=
  { symbol := "XYZ", costBasisTotal := some 1600, quantity := some 15,
    currentPrice := some 120, dividend := some 0 }

/-- A two-row ledger distinguishing case-sensitive grouping: `XYZ` and `xyz`
must stay separate symbols. -/
def c1CaseLedger : List LedgerRow :=
  [ { c1RowA with symbol := some "XYZ" },
    { c1RowB with symbol := some "xyz" } ]

/-- Ledger whose first `XYZ` record has a NaN price: `agg "first"` skips the
NaN and returns the second record's price. -/
def c1NaLedger : List LedgerRow :=
  [ { c1RowA with currentPrice := none },
    { c1RowB with currentPrice := some 50 } ]

/-- A Fidelity row whose account name matches no known account pattern. -/
def c2Fid529 : FidelityRow :=
  { c1Fid with accountName := some "529 Plan XYZ111" }

/-- A Fidelity row with a mixed-case Roth label (the extract pattern knows
only the all-caps `ROTH IRA`). -/
def c2FidRothMixed : FidelityRow :=
  { c1Fid with accountName := some "Roth IRA ...789" }

def c2FidRothCaps : FidelityRow :=
  { c1Fid with accountName := some "ROTH IRA ...789" }

def c2FidTrad : FidelityRow :=
  { c1Fid with accountName := some "Traditional IRA ...789" }

/-- A Schwab file whose second section is headed by unrecognized text: the
`"529 Plan"` row is not a marker, so the holding under it inherits the
previous section's account type. -/
def c2Sch529 : List SchwabRow :=
  [ schwabMarkerRow "Roth IRA ...123",
    schwabHoldingRow "AAA" "1" "10" "10" "10",
    schwabMarkerRow "529 Plan ...777",
    schwabHoldingRow "BBB" "1" "10" "10" "10" ]

/-- Schwab files exercising each marker mapping. -/
def c2SchInd : List SchwabRow :=
  [ schwabMarkerRow "Individual ...1", schwabHoldingRow "AAA" "1" "10" "10" "10" ]

def c2SchRoth : List SchwabRow :=
  [ schwabMarkerRow "Roth IRA ...1", schwabHoldingRow "AAA" "1" "10" "10" "10" ]

def c2SchContrib : List SchwabRow :=
  [ schwabMarkerRow "Contributory IRA ...1", schwabHoldingRow "AAA" "1" "10" "10" "10" ]

/-- The cash row of the C3 scenario: NaN quantity, current value 500.00. -/
def c3FidCash : FidelityRow :=
  { accountName := some "Individual - TOD X123", symbol := some "SPAXX**",
    description := some "FIDELITY GOVERNMENT MONEY MARKET", quantity := none,
    lastPrice := some "$1.00", costBasisTotal := none,
    currentValue := some "500.00" }

/-- A Schwab cash row: symbol contains `"Cash"`, market value $500.00. -/
def c3SchCash : SchwabRow :=
  { symbol := some "Cash & Cash Investments", description := some "Cash",
    qty := none, price := none, costBasis := none, mktVal := some "$500.00",
    securityType := some "Cash", pctOfAcct := some "1%" }

/-- A ledger row with zero cost basis (for the division-by-zero claim). -/
def c4ZeroCost : LedgerRow :=
  { accountType := some "Brokerage", symbol := some "FREE", description := none,
    quantity := some 10, currentPrice := some 2, costBasisTotal := some 0,
    source := "Fidelity", dividend := some 0 }

/-- A ledger row with zero quantity. -/
def c4ZeroQty : LedgerRow :=
  { accountType := some "Brokerage", symbol := some "GONE", description := none,
    quantity := some 0, currentPrice := some 2, costBasisTotal := some 100,
    source := "Fidelity", dividend := some 0 }

/-- A Schwab file whose first holding rows precede the first account marker. -/
def c6PreMarker : List SchwabRow :=
  [ schwabHoldingRow "ABC" "3" "10" "30" "30",
    schwabMarkerRow "Individual ...456",
    schwabHoldingRow "DEF" "1" "10" "10" "10" ]

/-- A Fidelity row with an account name but a NaN symbol cell. -/
def c6FidNoSym : FidelityRow :=
  { c1Fid with symbol := none }

/-- The forward-fill scenario: marker `"Roth IRA"`, three holdings, marker
`"Individual"`, one holding. -/
def c7Sch : List SchwabRow :=
  [ schwabMarkerRow "Roth IRA ...123",
    schwabHoldingRow "AAA" "1" "10" "10" "10",
    schwabHoldingRow "BBB" "1" "10" "10" "10",
    schwabHoldingRow "CCC" "1" "10" "10" "10",
    schwabMarkerRow "Individual ...456",
    schwabHoldingRow "DDD" "1" "10" "10" "10" ]

/-- A cash position (price pinned to 1.0) whose symbol is not the literal
`"CASH"`. -/
def c8CashRow : PositionRecord :=
  { accountType := some "Brokerage", symbol := some "SPAXX**",
    description := none, quantity := some 500, currentPrice := some 1,
    costBasisTotal := some 500, source := "Fidelity" }

/-- A quote source that delivers a dividend for the cash symbol `SPAXX**`. -/
def c8Quotes : Quotes :=
  { price := fun _ => none,
    div := fun s => if s = "SPAXX**" then some 5 else none }

/-- A Fidelity row whose numeric cells are malformed text. -/
def c9FidGarbage : FidelityRow :=
  { accountName := some "Individual - TOD X123", symbol := some "JUNK",
    description := some "JUNK", quantity := some "n/a",
    lastPrice := some "--", costBasisTotal := some "not applicable",
    currentValue := some "--" }

/-- A genuine security whose live price happens to be exactly $1.00. -/
def c10OneDollar : LedgerRow :=
  { accountType := some "Brokerage", symbol := some "PENNY", description := none,
    quantity := some 100, currentPrice := some 1, costBasisTotal := some 90,
    source := "Fidelity", dividend := some 0 }

/-- A quote source that would quote `PENNY` at $37. -/
def c10Quotes : Quotes :=
  { price := fun s => if s = "PENNY" then some 37 else none,
    div := fun _ => none }

/-! ## Theorems

First the arithmetic bridges (the `q`-operations are `+`, `-`, `*`, `/`),
then helper lemmas, then one theorem per claim. -/

theorem qadd_eq (a b : ℚ) : qadd a b = a + b := by
  have ha : ((a.den : ℤ)) ≠ 0 := Int.natCast_ne_zero.mpr a.den_nz
  have hb : ((b.den : ℤ)) ≠ 0 := Int.natCast_ne_zero.mpr b.den_nz
  rw [qadd]
  conv_rhs => rw [← Rat.num_divInt_den a, ← Rat.num_divInt_den b]
  rw [Rat.divInt_add_divInt _ _ ha hb]

theorem qneg_eq (a : ℚ) : qneg a = -a := by
  rw [qneg]
  conv_rhs => rw [← Rat.num_divInt_den a]
  rw [Rat.neg_divInt]

theorem qsub_eq (a b : ℚ) : qsub a b = a - b := by
  rw [qsub, qadd_eq, qneg_eq, sub_eq_add_neg]

theorem qmul_eq (a b : ℚ) : qmul a b = a * b := by
  rw [qmul]
  conv_rhs => rw [← Rat.num_divInt_den a, ← Rat.num_divInt_den b]
  rw [Rat.divInt_mul_divInt']

theorem qdiv_eq (a b : ℚ) : qdiv a b = a / b := by
  rw [qdiv]
  conv_rhs => rw [← Rat.num_divInt_den a, ← Rat.num_divInt_den b]
  rw [Rat.divInt_div_divInt]

theorem foldl_qadd_eq (l : List ℚ) (a : ℚ) : l.foldl qadd a = a + l.sum := by
  induction l generalizing a with
  | nil => simp
  | cons x xs ih => rw [List.foldl_cons, ih, qadd_eq, List.sum_cons]; ring

/-- Lemma: `sumSkipNa` is the ordinary rational sum of the non-NaN entries. -/
theorem sumSkipNa_eq (vs : List Val) : sumSkipNa vs = (vs.filterMap id).sum := by
  rw [sumSkipNa, foldl_qadd_eq, zero_add]

theorem mem_dedupSeen (a : String) (l : List String) :
    ∀ seen, a ∈ dedupSeen seen l ↔ a ∈ l ∧ a ∉ seen := by
  induction l with
  | nil => intro seen; simp [dedupSeen]
  | cons s rest ih =>
    intro seen
    by_cases hs : s ∈ seen
    · rw [dedupSeen]
      simp only [hs, if_true, ih, List.mem_cons]
      constructor
      · rintro ⟨h1, h2⟩
        exact ⟨Or.inr h1, h2⟩
      · rintro ⟨h1 | h1, h2⟩
        · exact absurd (h1 ▸ hs) h2
        · exact ⟨h1, h2⟩
    · rw [dedupSeen]
      simp only [hs, if_false, List.mem_cons, ih]
      by_cases ha : a = s
      · subst ha; simp [hs]
      · simp [ha]

theorem mem_dedupKeepFirst (a : String) (l : List String) :
    a ∈ dedupKeepFirst l ↔ a ∈ l := by
  rw [dedupKeepFirst, mem_dedupSeen]
  simp

/-- Division with a zero divisor is always undefined, whatever the
numerator cell holds. -/
theorem vdiv_zero (x : Val) : vdiv x (some 0) = none := by
  rcases x with _ | a <;> simp [vdiv]

/-- Every tagged row produced by the forward fill is one of the scanned
rows. -/
theorem ffill_row_mem (t : SchwabTagged) (rows : List SchwabRow) :
    ∀ cur, t ∈ ffillFrom cur rows → t.row ∈ rows := by
  induction rows with
  | nil => intro cur h; simp [ffillFrom] at h
  | cons r rs ih =>
    intro cur h
    rw [ffillFrom] at h
    rcases List.mem_cons.mp h with h | h
    · subst h; exact List.mem_cons_self _ _
    · exact List.mem_cons_of_mem _ (ih _ h)

/-- Cash synthesis does not touch the symbol cell. -/
theorem schwabCashFix_symbol (r : SchwabRow) : (schwabCashFix r).symbol = r.symbol := by
  rcases h : r.symbol with _ | s <;> simp only [schwabCashFix, h]
  split <;> first | rfl | exact h

/-- The standardised Schwab record keeps the raw row's symbol. -/
theorem schwabToRec_symbol (a : Option String) (r : SchwabRow) :
    (schwabToRec a r).symbol = r.symbol := by
  simp only [schwabToRec]
  exact schwabCashFix_symbol r

/-- Appending a record of a different symbol leaves a symbol's aggregate
unchanged. -/
theorem aggRow_append_other (rows : List LedgerRow) (bad : LedgerRow) (sym : String)
    (h : ¬ bad.symbol = some sym) :
    aggRow (rows ++ [bad]) sym = aggRow rows sym := by
  have hg : groupRows (rows ++ [bad]) sym = groupRows rows sym := by
    rw [groupRows, groupRows, List.filter_append]
    simp [List.filter_cons, h]
  rw [aggRow, aggRow, hg]

/-- Splitting a NaN-skipping sum along a boolean predicate. -/
theorem sum_filterMap_split {α : Type} (f : α → Option ℚ) (p : α → Bool) (l : List α) :
    ((l.filter p).filterMap f).sum + ((l.filter (fun x => !p x)).filterMap f).sum
      = (l.filterMap f).sum := by
  induction l with
  | nil => simp
  | cons x xs ih =>
    cases hp : p x <;> rcases hf : f x with _ | v <;>
      simp [List.filter_cons, List.filterMap_cons, hp, hf, ← ih] <;> ring

/-- The cash and invested summaries split the total aggregated position
value. -/
theorem cash_invested_split (rows : List LedgerRow) :
    cashValue rows + investedValue rows
      = sumSkipNa ((portfolioNorm rows).map aggPositionValue) := by
  rw [cashValue, investedValue, sumSkipNa_eq, sumSkipNa_eq, sumSkipNa_eq,
    List.filterMap_map, List.filterMap_map, List.filterMap_map]
  have h := sum_filterMap_split (fun a => id (aggPositionValue a))
    (fun a => decide (a.currentPrice = some 1)) (portfolioNorm rows)
  simpa [Function.comp, decide_not] using h

/-- Claim C3: a raw row identified as cash — Fidelity: NaN quantity;
Schwab: symbol containing "Cash" — is synthesized to `current_price = 1.0`
and `quantity = cost_basis_total =` the row's prior current/market value;
in particular a row with null quantity and current value 500.00 yields
quantity 500, price 1, cost basis 500. -/
theorem C3_cash_synthesis :
    (∀ r : FidelityRow, r.quantity = none →
      (fidelityToRec r).currentPrice = some 1 ∧
      (fidelityToRec r).quantity = coerceNum r.currentValue ∧
      (fidelityToRec r).costBasisTotal = coerceNum r.currentValue)
  ∧ (∀ (a : Option String) (r : SchwabRow) (s : String),
      r.symbol = some s → hasSub "Cash" s = true →
      (schwabToRec a r).currentPrice = some 1 ∧
      (schwabToRec a r).quantity = coerceNum r.mktVal ∧
      (schwabToRec a r).costBasisTotal = coerceNum r.mktVal)
  ∧ loadFidelity [c3FidCash] =
      [{ accountType := some "Brokerage", symbol := some "SPAXX**",
         description := some "FIDELITY GOVERNMENT MONEY MARKET",
         quantity := some 500, currentPrice := some 1,
         costBasisTotal := some 500, source := "Fidelity" }]
  ∧ (loadSchwab [schwabMarkerRow "Individual ...456", c3SchCash]).map
      (fun r => (r.quantity, r.currentPrice, r.costBasisTotal)) =
      [(some 500, some 1, some 500)] := by
  have h1 : coerceNum (some "1.0") = some 1 := by decide
  refine ⟨?_, ?_, by decide, by decide⟩
  · intro r h
    refine ⟨?_, ?_, ?_⟩ <;> simp [fidelityToRec, fidelityCashFix, h, h1]
  · intro a r s hs hc
    refine ⟨?_, ?_, ?_⟩ <;> simp [schwabToRec, schwabCashFix, hs, hc, h1]

/-- Claim C3 witness at the concrete cash rows of both formats. -/
theorem C3_cash_synthesis_witness :
    ((fidelityToRec c3FidCash).currentPrice = some 1 ∧
      (fidelityToRec c3FidCash).quantity = coerceNum c3FidCash.currentValue ∧
      (fidelityToRec c3FidCash).costBasisTotal = coerceNum c3FidCash.currentValue)
  ∧ ((schwabToRec (some "Individual") c3SchCash).currentPrice = some 1 ∧
      (schwabToRec (some "Individual") c3SchCash).quantity = coerceNum c3SchCash.mktVal ∧
      (schwabToRec (some "Individual") c3SchCash).costBasisTotal = coerceNum c3SchCash.mktVal) :=
  ⟨C3_cash_synthesis.1 c3FidCash (by decide),
   C3_cash_synthesis.2.1 (some "Individual") c3SchCash "Cash & Cash Investments"
     (by decide) (by decide)⟩

/-- Claim C4: neither the metric deriver nor the aggregator can raise on
division by zero: zero cost basis gives an undefined pnl ratio, zero
quantity an undefined cost basis per share (per row and per aggregated
symbol), the zero-quantity symbol stays in the aggregate output, and a
degenerate row never disturbs the aggregate of any other symbol. -/
theorem C4_division_by_zero :
    (∀ r : LedgerRow, r.costBasisTotal = some 0 → pnlRatio r = none)
  ∧ (∀ r : LedgerRow, r.quantity = some 0 → costBasisPerShare r = none)
  ∧ (∀ a : AggRow, a.costBasisTotal = some 0 → aggPnlRatio a = none)
  ∧ (∀ a : AggRow, a.quantity = some 0 → aggCostBasisPerShare a = none)
  ∧ (∀ (rows : List LedgerRow) (r : LedgerRow) (s : String),
      r ∈ rows → r.symbol = some s →
      aggRow rows s ∈ portfolioNorm rows ∧ (aggRow rows s).symbol = s)
  ∧ (∀ (rows : List LedgerRow) (bad : LedgerRow) (s : String),
      ¬ bad.symbol = some s → aggRow (rows ++ [bad]) s = aggRow rows s) := by
  refine ⟨?_, ?_, ?_, ?_, ?_, ?_⟩
  · intro r h; rw [pnlRatio, h]; exact vdiv_zero _
  · intro r h; rw [costBasisPerShare, h]; exact vdiv_zero _
  · intro a h; rw [aggPnlRatio, h]; exact vdiv_zero _
  · intro a h; rw [aggCostBasisPerShare, h]; exact vdiv_zero _
  · intro rows r s hr hs
    constructor
    · rw [portfolioNorm]
      refine List.mem_map_of_mem _ ?_
      rw [mem_dedupKeepFirst]
      exact List.mem_filterMap.mpr ⟨r, hr, hs⟩
    · rfl
  · intro rows bad s h
    exact aggRow_append_other rows bad s h

/-- Claim C4 witness: concrete degenerate rows. -/
theorem C4_division_by_zero_witness :
    pnlRatio c4ZeroCost = none
  ∧ costBasisPerShare c4ZeroQty = none
  ∧ aggPnlRatio (aggRow [c4ZeroCost] "FREE") = none
  ∧ aggCostBasisPerShare (aggRow [c4ZeroQty] "GONE") = none
  ∧ aggRow [c4ZeroQty] "GONE" ∈ portfolioNorm [c4ZeroQty]
  ∧ aggRow ([c4ZeroQty] ++ [c4ZeroCost]) "GONE" = aggRow [c4ZeroQty] "GONE" :=
  ⟨C4_division_by_zero.1 c4ZeroCost (by decide),
   C4_division_by_zero.2.1 c4ZeroQty (by decide),
   C4_division_by_zero.2.2.1 (aggRow [c4ZeroCost] "FREE") (by decide),
   C4_division_by_zero.2.2.2.1 (aggRow [c4ZeroQty] "GONE") (by decide),
   (C4_division_by_zero.2.2.2.2.1 [c4ZeroQty] c4ZeroQty "GONE"
     (by decide) (by decide)).1,
   C4_division_by_zero.2.2.2.2.2 [c4ZeroQty] c4ZeroCost "GONE" (by decide)⟩

/-- Claim C1 counterexample: when the first contributing `XYZ` record's
price is NaN, the aggregate carries the SECOND record's price (`agg "first"`
skips nulls), so "current_price taken from the first contributing record in
ledger order" is false as stated. -/
theorem C1_symbol_aggregation_cex :
    c1NaLedger.map (fun r => r.currentPrice) = [none, some 50]
  ∧ (c1NaLedger.map (fun r => r.symbol) = [some "XYZ", some "XYZ"])
  ∧ (portfolioNorm c1NaLedger).map (fun a => a.currentPrice) = [some 50] :=
  ⟨by decide, by decide, by decide⟩

/-- Claim C1 (amended): the stated two-file `XYZ` scenario holds exactly
(quantity 15, cost 1600, price 120 from the first file, position value 1800,
pnl ratio 0.125); grouping is by exact case-sensitive symbol; sums skip null
cells; `current_price` and `dividend_per_share` come from the first record
per symbol THAT HAS A NON-NULL VALUE (nulls are skipped), and the derived
metrics are recomputed from the summed values. -/
theorem C1_symbol_aggregation :
    pipeline silentQuotes c1Files = Except.ok [c1RowA, c1RowB]
  ∧ portfolioNorm [c1RowA, c1RowB] = [c1Agg]
  ∧ aggPositionValue c1Agg = some 1800
  ∧ aggPnlRatio c1Agg = some ((1 : ℚ)/8)
  ∧ (portfolioNorm c1CaseLedger).map (fun a => a.symbol) = ["XYZ", "xyz"]
  ∧ (∀ (rows : List LedgerRow) (s : String),
      (aggRow rows s).costBasisTotal
        = some (((groupRows rows s).filterMap (fun r => r.costBasisTotal)).sum)
      ∧ (aggRow rows s).quantity
        = some (((groupRows rows s).filterMap (fun r => r.quantity)).sum)
      ∧ (aggRow rows s).currentPrice
        = ((groupRows rows s).filterMap (fun r => r.currentPrice)).head?
      ∧ (aggRow rows s).dividend
        = ((groupRows rows s).filterMap (fun r => r.dividend)).head?) := by
  have h8 : ((1 : ℚ)/8) = Rat.divInt 1 8 := by norm_num [Rat.divInt_eq_div]
  refine ⟨by decide, by decide, by decide, ?_, by decide, ?_⟩
  · rw [h8]; decide
  · intro rows s
    refine ⟨?_, ?_, ?_, ?_⟩ <;>
      simp [aggRow, sumSkipNa_eq, firstNonNa, List.filterMap_map, Function.comp]

/-- Claim C2 counterexample: unrecognized account-type text does not become
the canonical value `Unknown`.  Format A keeps the row but nulls the account
type (`"529 Plan"` and even the mixed-case `"Roth IRA"` extract to NaN);
format B never treats `"529 Plan"` as a marker, so holdings under that
heading inherit the previous section's type. -/
theorem C2_account_type_mapping_cex :
    (loadFidelity [c2Fid529]).map (fun r => r.accountType) = [none]
  ∧ (loadFidelity [c2FidRothMixed]).map (fun r => r.accountType) = [none]
  ∧ (loadSchwab c2Sch529).map (fun r => r.accountType)
      = [some "Roth IRA", some "Roth IRA"] :=
  ⟨by decide, by decide, by decide⟩

/-- Claim C2 (amended): format A extracts the case-sensitive patterns
`Individual` / `ROTH IRA` / `Traditional IRA` from the account name,
mapping them to `Brokerage` / `Roth IRA` / `Traditional IRA`; a name
matching none of them yields a NULL account type while the row is kept
(no exception, no drop).  Format B recognizes as markers only symbols
containing `Individual` / `Roth` / `Contributory` (case-sensitive
substrings), mapped to `Brokerage` / `Roth IRA` / `Traditional IRA`;
unrecognized heading text is not a marker at all, so rows under it carry
the previous marker's type (or null before any marker). -/
theorem C2_account_type_mapping :
    (loadFidelity [c1Fid]).map (fun r => r.accountType) = [some "Brokerage"]
  ∧ (loadFidelity [c2FidRothCaps]).map (fun r => r.accountType) = [some "Roth IRA"]
  ∧ (loadFidelity [c2FidTrad]).map (fun r => r.accountType) = [some "Traditional IRA"]
  ∧ (loadFidelity [c2Fid529]).length = 1
  ∧ (loadSchwab c2SchInd).map (fun r => r.accountType) = [some "Brokerage"]
  ∧ (loadSchwab c2SchRoth).map (fun r => r.accountType) = [some "Roth IRA"]
  ∧ (loadSchwab c2SchContrib).map (fun r => r.accountType) = [some "Traditional IRA"]
  ∧ (∀ name : String, fidelityExtract name.data = none →
      (fidelityToRec { c1Fid with accountName := some name }).accountType = none) := by
  refine ⟨by decide, by decide, by decide, by decide, by decide, by decide, by decide, ?_⟩
  intro name h
  simp [fidelityToRec, fidelityCashFix, c1Fid, fidelityAcctNorm, h]

/-- Claim C2 witness: the unmatched-label branch at `"529 Plan XYZ111"`. -/
theorem C2_account_type_mapping_witness :
    (fidelityToRec { c1Fid with accountName := some "529 Plan XYZ111" }).accountType
      = none :=
  C2_account_type_mapping.2.2.2.2.2.2.2 "529 Plan XYZ111" (by decide)

/-- Claim C5 counterexample: one recognized file whose parser contributes
zero rows — the frames list is nonempty, so the run does NOT stop; the
claim's "or every parser contributed zero rows" arm is not checked by the
code. -/
theorem C5_empty_ledger_cex :
    portfolioFrames [BrokerFile.fidelity []] = [[]]
  ∧ assemble [BrokerFile.fidelity []] = Except.ok [] :=
  ⟨by decide, by decide⟩

/-- Claim C5 (amended): assembly stops with the empty-ledger error exactly
when the frames list itself is empty (no input file was recognized); a
recognized parser output still counts even with zero rows, and otherwise
the frames are concatenated in input-file order. -/
theorem C5_empty_ledger :
    (∀ files : List BrokerFile,
      assemble files = Except.error "EmptyLedgerError" ↔ portfolioFrames files = [])
  ∧ (∀ files : List BrokerFile, portfolioFrames files ≠ [] →
      assemble files = Except.ok (portfolioFrames files).flatten) := by
  constructor
  · intro files
    rcases h : portfolioFrames files with _ | ⟨f, fs⟩ <;> simp [assemble, h]
  · intro files h
    rcases hh : portfolioFrames files with _ | ⟨f, fs⟩
    · exact absurd hh h
    · simp [assemble, hh]

/-- Claim C5 witness: the empty configuration errors; one recognized
nonempty file assembles to its own rows. -/
theorem C5_empty_ledger_witness :
    (assemble ([] : List BrokerFile) = Except.error "EmptyLedgerError"
      ↔ portfolioFrames ([] : List BrokerFile) = [])
  ∧ assemble [BrokerFile.fidelity [c1Fid]]
      = Except.ok (portfolioFrames [BrokerFile.fidelity [c1Fid]]).flatten :=
  ⟨C5_empty_ledger.1 [], C5_empty_ledger.2 [BrokerFile.fidelity [c1Fid]] (by decide)⟩

/-- Claim C6 counterexample: a format-B holding row placed before the first
account marker is kept with a NULL account type (it is not dropped), and a
format-A row with a present account name but NaN symbol is kept with a NULL
symbol. -/
theorem C6_nonnull_fields_cex :
    (loadSchwab c6PreMarker).map (fun r => (r.symbol, r.accountType))
      = [(some "ABC", none), (some "DEF", some "Brokerage")]
  ∧ (loadFidelity [c6FidNoSym]).map (fun r => r.symbol) = [none] :=
  ⟨by decide, by decide⟩

/-- Claim C6 (amended): format B drops rows with a null symbol, so every
record it emits has a non-null symbol; format A drops rows with a null
account NAME, and every record it emits comes from such a row.  Neither
parser guarantees a non-null normalized account type (see the
counterexample), and format A does not guarantee a non-null symbol. -/
theorem C6_nonnull_fields :
    (∀ (raw : List SchwabRow) (r : PositionRecord),
      r ∈ loadSchwab raw → r.symbol.isSome)
  ∧ (∀ (raw : List FidelityRow) (r : PositionRecord),
      r ∈ loadFidelity raw →
        ∃ r0 ∈ raw, r0.accountName.isSome ∧ r = fidelityToRec r0) := by
  constructor
  · intro raw r hr
    simp only [loadSchwab] at hr
    rcases List.mem_map.mp hr with ⟨t, ht, rfl⟩
    have ht2 := List.mem_filter.mp ht
    have hrow := ffill_row_mem t _ none ht2.1
    have hsym := (List.mem_filter.mp hrow).2
    rw [schwabToRec_symbol]
    simpa using hsym
  · intro raw r hr
    simp only [loadFidelity] at hr
    rcases List.mem_map.mp hr with ⟨r0, h0, rfl⟩
    have h1 := List.mem_filter.mp h0
    exact ⟨r0, h1.1, by simpa using h1.2, rfl⟩

/-- Claim C6 witness: concrete members of both parsers' outputs. -/
theorem C6_nonnull_fields_witness :
    (schwabToRec none (schwabHoldingRow "ABC" "3" "10" "30" "30")).symbol.isSome = true
  ∧ ∃ r0 ∈ [c1Fid], r0.accountName.isSome ∧ fidelityToRec c1Fid = fidelityToRec r0 :=
  ⟨C6_nonnull_fields.1 c6PreMarker _ (by decide),
   C6_nonnull_fields.2 [c1Fid] (fidelityToRec c1Fid) (by decide)⟩

/-- Claim C7: the format-B account type comes from a stateful forward-fill
scan in file order: a marker row sets the carried label for all following
rows until the next marker; the `"Roth IRA"`-then-`"Individual"` scenario
resolves to three `Roth IRA` rows and one `Brokerage` row. -/
theorem C7_forward_fill :
    (loadSchwab c7Sch).map (fun r => (r.symbol, r.accountType))
      = [(some "AAA", some "Roth IRA"), (some "BBB", some "Roth IRA"),
         (some "CCC", some "Roth IRA"), (some "DDD", some "Brokerage")]
  ∧ (∀ (cur : Option String) (m : SchwabRow) (lbl : String) (rows : List SchwabRow),
      schwabMarkerOf m = some lbl →
      ffillFrom cur (m :: rows) = ⟨m, some lbl⟩ :: ffillFrom (some lbl) rows)
  ∧ (∀ (cur : Option String) (rows : List SchwabRow),
      (∀ r ∈ rows, schwabMarkerOf r = none) →
      ∀ t ∈ ffillFrom cur rows, t.acct = cur) := by
  refine ⟨by decide, ?_, ?_⟩
  · intro cur m lbl rows h
    simp [ffillFrom, h]
  · intro cur rows
    induction rows generalizing cur with
    | nil => intro _ t ht; simp [ffillFrom] at ht
    | cons r rs ih =>
      intro h t ht
      simp only [ffillFrom, h r (List.mem_cons_self r rs)] at ht
      rcases List.mem_cons.mp ht with rfl | ht2
      · rfl
      · exact ih cur (fun x hx => h x (List.mem_cons_of_mem _ hx)) t ht2

/-- Claim C7 witness: one marker step and one markerless stretch. -/
theorem C7_forward_fill_witness :
    ffillFrom none (schwabMarkerRow "Roth IRA ...123"
        :: [schwabHoldingRow "AAA" "1" "10" "10" "10"])
      = ⟨schwabMarkerRow "Roth IRA ...123", some "Roth"⟩
        :: ffillFrom (some "Roth") [schwabHoldingRow "AAA" "1" "10" "10" "10"]
  ∧ ∀ t ∈ ffillFrom (some "Roth") [schwabHoldingRow "AAA" "1" "10" "10" "10"],
      t.acct = some "Roth" :=
  ⟨C7_forward_fill.2.1 none _ "Roth" _ (by decide),
   C7_forward_fill.2.2 (some "Roth") _ (by decide)⟩

/-- Claim C8 counterexample: a cash row (price pinned to 1.0) whose symbol
is not the literal `"CASH"` is NOT short-circuited to dividend 0: its
dividend is whatever the adapter delivers for its symbol (5 here, 0 only
when the adapter has nothing), so the fetch IS consulted for it. -/
theorem C8_enrichment_cex :
    c8CashRow.currentPrice = some 1
  ∧ upcase "SPAXX**" ≠ "CASH"
  ∧ (attachDividend c8Quotes c8CashRow).dividend = some 5
  ∧ (attachDividend { price := fun _ => none, div := fun _ => none } c8CashRow).dividend
      = some 0 :=
  ⟨by decide, by decide, by decide, by decide⟩

/-- Claim C8 (amended): when the adapter returns no price the record's
existing price is retained; when it returns no dividend the dividend
defaults to 0; a row whose price is exactly 1.0 is never price-updated, and
the literal symbol `CASH` (case-insensitive) is skipped by the price fetch
and pinned to dividend 0 — but any other cash row's dividend is taken from
the adapter like every symbol.  Each row's enrichment depends only on the
adapter's answer for its own symbol, so one failed lookup never disturbs
another symbol. -/
theorem C8_enrichment :
    (∀ (q : Quotes) (r : PositionRecord) (s : String),
      r.symbol = some s → q.price s = none →
      (updatePrice q r).currentPrice = r.currentPrice)
  ∧ (∀ (q : Quotes) (r : PositionRecord) (s : String),
      r.symbol = some s → q.div s = none →
      (attachDividend q r).dividend = some 0)
  ∧ (∀ (q : Quotes) (r : PositionRecord),
      r.currentPrice = some 1 → updatePrice q r = r)
  ∧ (∀ (q : Quotes) (s : String), upcase s = "CASH" →
      livePriceMap q s = none ∧ divMap q s = some 0)
  ∧ (∀ (q q' : Quotes) (r : PositionRecord) (s : String),
      r.symbol = some s → q.price s = q'.price s →
      updatePrice q r = updatePrice q' r)
  ∧ (∀ (q q' : Quotes) (r : PositionRecord) (s : String),
      r.symbol = some s → q.div s = q'.div s →
      attachDividend q r = attachDividend q' r) := by
  refine ⟨?_, ?_, ?_, ?_, ?_, ?_⟩
  · intro q r s hs hp
    rw [updatePrice]
    split
    · rfl
    · by_cases hc : upcase s = "CASH" <;> simp [hs, livePriceMap, hp, hc]
  · intro q r s hs hd
    by_cases hc : upcase s = "CASH" <;> simp [attachDividend, divMap, hs, hd, hc]
  · intro q r h
    rw [updatePrice]
    simp [h]
  · intro q s h
    exact ⟨by simp [livePriceMap, h], by simp [divMap, h]⟩
  · intro q q' r s hs hpq
    have h : livePriceMap q s = livePriceMap q' s := by
      rw [livePriceMap, livePriceMap, hpq]
    simp [updatePrice, hs, h]
  · intro q q' r s hs hdq
    have h : divMap q s = divMap q' s := by
      rw [divMap, divMap, hdq]
    simp [attachDividend, hs, h]

/-- Claim C8 witness: the policies at a concrete cash row and a quoteless
adapter. -/
theorem C8_enrichment_witness :
    (updatePrice { price := fun _ => none, div := fun _ => none } c8CashRow).currentPrice
      = c8CashRow.currentPrice
  ∧ (attachDividend { price := fun _ => none, div := fun _ => none } c8CashRow).dividend
      = some 0
  ∧ updatePrice c8Quotes c8CashRow = c8CashRow
  ∧ (livePriceMap c8Quotes "Cash" = none ∧ divMap c8Quotes "Cash" = some 0)
  ∧ updatePrice c8Quotes c8CashRow
      = updatePrice { price := fun _ => none, div := fun _ => none } c8CashRow
  ∧ attachDividend c8Quotes c8CashRow = attachDividend c8Quotes c8CashRow :=
  ⟨C8_enrichment.1 _ c8CashRow "SPAXX**" (by decide) (by rfl),
   C8_enrichment.2.1 _ c8CashRow "SPAXX**" (by decide) (by rfl),
   C8_enrichment.2.2.1 c8Quotes c8CashRow (by decide),
   C8_enrichment.2.2.2.1 c8Quotes "Cash" (by decide),
   C8_enrichment.2.2.2.2.1 c8Quotes _ c8CashRow "SPAXX**" (by decide) (by rfl),
   C8_enrichment.2.2.2.2.2 c8Quotes c8Quotes c8CashRow "SPAXX**" (by decide) (by rfl)⟩

/-- Claim C9: numeric coercion strips the currency symbol and the grouping
separators and parses the remainder as a decimal; a token that still fails
to parse becomes NaN; and a malformed value can never drop a row or raise —
each parser's output length is fixed by the row-structure filters alone. -/
theorem C9_numeric_coercion :
    (∀ s : String, (stripMoney s).data
      = s.data.filter (fun c => c ≠ '$' && c ≠ ','))
  ∧ (∀ raw : List FidelityRow,
      (loadFidelity raw).length
        = (raw.filter (fun r => r.accountName.isSome)).length)
  ∧ (∀ raw : List SchwabRow,
      (loadSchwab raw).length
        = ((ffillFrom none (raw.filter (fun r => r.symbol.isSome))).filter
            (fun t => schwabHolding t.row)).length)
  ∧ coerceNum (some "$1,234.56") = some (Rat.divInt 123456 100)
  ∧ coerceNum (some "1,000.00") = some 1000
  ∧ coerceNum (some "n/a") = none
  ∧ coerceNum (some "--") = none
  ∧ coerceNum none = none
  ∧ (loadFidelity [c9FidGarbage]).map
      (fun r => (r.quantity, r.currentPrice, r.costBasisTotal))
      = [(none, none, none)] := by
  refine ⟨?_, ?_, ?_, by decide, by decide, by decide, by decide, by decide, by decide⟩
  · intro s; rfl
  · intro raw; rw [loadFidelity, List.length_map]
  · intro raw; rw [loadSchwab, List.length_map]

/-- Claim C10: a ledger row with price exactly 1.0 is treated as cash by
the downstream stages regardless of its symbol: the live-price update never
touches it (even when the adapter has a quote for the symbol), and an
aggregated row with price 1.0 is counted in the cash summary and excluded
from the invested summary — together the two summaries split the total.
The genuine $1.00 security PENNY stays at price 1 and lands entirely in
cash. -/
theorem C10_price_one_is_cash :
    (∀ (q : Quotes) (r : PositionRecord),
      r.currentPrice = some 1 → updatePrice q r = r)
  ∧ (∀ rows : List LedgerRow,
      cashValue rows + investedValue rows
        = sumSkipNa ((portfolioNorm rows).map aggPositionValue))
  ∧ (∀ rows : List LedgerRow,
      ∀ a ∈ (portfolioNorm rows).filter (fun a => ¬ a.currentPrice = some 1),
        a.currentPrice ≠ some 1)
  ∧ updatePrice c10Quotes c10OneDollar.toPositionRecord
      = c10OneDollar.toPositionRecord
  ∧ cashValue [c10OneDollar] = 100
  ∧ investedValue [c10OneDollar] = 0 := by
  refine ⟨?_, cash_invested_split, ?_, by decide, by decide, by decide⟩
  · intro q r h
    rw [updatePrice]
    simp [h]
  · intro rows a ha
    have h := (List.mem_filter.mp ha).2
    simpa using h

/-- Claim C10 witness: the hypothesized conjuncts at the PENNY row. -/
theorem C10_price_one_is_cash_witness :
    updatePrice c10Quotes c10OneDollar.toPositionRecord
      = c10OneDollar.toPositionRecord
  ∧ (aggRow [c4ZeroQty] "GONE").currentPrice ≠ some 1 :=
  ⟨C10_price_one_is_cash.1 c10Quotes _ (by decide),
   C10_price_one_is_cash.2.2.1 [c4ZeroQty] (aggRow [c4ZeroQty] "GONE") (by decide)⟩

end Dinero
